import Mathlib

/-!
Verification of the Quest3-Teleop dynamixel core: a shallow embedding of
the angle arithmetic, the two control loops, the safety checks and the
driver layer, with theorems settling the spec's testable properties.

Conventions: angles, times and degree values are real numbers; Python's
float modulo `x % m` (sign of the divisor, so the result lies in `[0, m)`
for `m > 0`) is embedded as `pymod`; Python's `int()` truncation toward
zero is embedded as `pyInt`.
-/

namespace Teleop

/-- Python float modulo with positive divisor semantics: `x - m * ⌊x / m⌋`. -/
noncomputable def pymod (x m : ℝ) : ℝ := x - m * ⌊x / m⌋

/-- From dynamixel_robot.py, `wrap_to_pi`:
`(radians_array + np.pi) % (2 * np.pi) - np.pi`. -/
noncomputable def wrap_to_pi (x : ℝ) : ℝ :=
  pymod (x + Real.pi) (2 * Real.pi) - Real.pi

/-- From Television_Quest_Sync.py lines 117/120: the degree wrap
`(offset + 180) % 360 - 180`. -/
noncomputable def wrapDeg (d : ℝ) : ℝ := pymod (d + 180) 360 - 180

/-- np.deg2rad: multiplication by `π / 180`. -/
noncomputable def deg2rad (d : ℝ) : ℝ := d * Real.pi / 180

/-- Python `int()`: truncation toward zero. -/
noncomputable def pyInt (x : ℝ) : ℤ := if 0 ≤ x then ⌊x⌋ else ⌈x⌉

lemma pymod_eq_fract (x m : ℝ) (hm : m ≠ 0) :
    pymod x m = m * Int.fract (x / m) := by
  unfold pymod Int.fract
  field_simp

lemma pymod_nonneg (x m : ℝ) (hm : 0 < m) : 0 ≤ pymod x m := by
  rw [pymod_eq_fract x m hm.ne.symm]
  exact mul_nonneg hm.le (Int.fract_nonneg _)

lemma pymod_lt (x m : ℝ) (hm : 0 < m) : pymod x m < m := by
  rw [pymod_eq_fract x m hm.ne.symm]
  have h := Int.fract_lt_one (x / m)
  calc m * Int.fract (x / m) < m * 1 := by
        exact mul_lt_mul_of_pos_left h hm
    _ = m := mul_one m

lemma pymod_eq_self (x m : ℝ) (hm : 0 < m) (h0 : 0 ≤ x) (h1 : x < m) :
    pymod x m = x := by
  unfold pymod
  have hfl : ⌊x / m⌋ = 0 := by
    rw [Int.floor_eq_zero_iff]
    constructor
    · exact div_nonneg h0 hm.le
    · rw [div_lt_one hm]; exact h1
  rw [hfl]
  simp

lemma pymod_add_int_mul (x m : ℝ) (n : ℤ) :
    pymod (x + m * n) m = pymod x m := by
  rcases eq_or_ne m 0 with hm | hm
  · simp [pymod, hm]
  · unfold pymod
    have hdiv : (x + m * n) / m = x / m + n := by field_simp; ring
    rw [hdiv, Int.floor_add_int]
    push_cast
    ring

lemma wrap_to_pi_mem (x : ℝ) :
    -Real.pi ≤ wrap_to_pi x ∧ wrap_to_pi x < Real.pi := by
  have h2 : (0:ℝ) < 2 * Real.pi := by positivity
  constructor
  · have := pymod_nonneg (x + Real.pi) (2 * Real.pi) h2
    unfold wrap_to_pi
    linarith
  · have := pymod_lt (x + Real.pi) (2 * Real.pi) h2
    unfold wrap_to_pi
    linarith

lemma wrap_to_pi_idem (x : ℝ) : wrap_to_pi (wrap_to_pi x) = wrap_to_pi x := by
  have h2 : (0:ℝ) < 2 * Real.pi := by positivity
  obtain ⟨hlo, hhi⟩ := wrap_to_pi_mem x
  set w := wrap_to_pi x with hw
  have h0 : 0 ≤ w + Real.pi := by linarith
  have h1 : w + Real.pi < 2 * Real.pi := by linarith
  rw [wrap_to_pi, pymod_eq_self _ _ h2 h0 h1]
  ring

lemma wrap_to_pi_add_two_pi_int (x : ℝ) (n : ℤ) :
    wrap_to_pi (x + 2 * Real.pi * n) = wrap_to_pi x := by
  unfold wrap_to_pi
  have h : x + 2 * Real.pi * n + Real.pi = (x + Real.pi) + (2 * Real.pi) * n := by
    ring
  rw [h, pymod_add_int_mul]

lemma wrap_to_pi_sub_rep (x : ℝ) :
    ∃ n : ℤ, wrap_to_pi x = x + 2 * Real.pi * n := by
  refine ⟨-⌊(x + Real.pi) / (2 * Real.pi)⌋, ?_⟩
  unfold wrap_to_pi pymod
  push_cast
  ring

lemma wrapDeg_mem (d : ℝ) : -180 ≤ wrapDeg d ∧ wrapDeg d < 180 := by
  have h : (0:ℝ) < 360 := by norm_num
  have h0 := pymod_nonneg (d + 180) 360 h
  have h1 := pymod_lt (d + 180) 360 h
  unfold wrapDeg
  constructor <;> linarith

/-- A three-joint vector, index-aligned with `JOINT_IDS = [2, 1, 3]`; the
control scripts address the three joints by literal index. -/
@[ext]
structure Vec3 where
  j0 : ℝ
  j1 : ℝ
  j2 : ℝ

/-- Elementwise difference of two joint vectors. -/
def vsub (a b : Vec3) : Vec3 := ⟨a.j0 - b.j0, a.j1 - b.j1, a.j2 - b.j2⟩

/-- np.linalg.norm: the Euclidean norm of a three-joint vector. -/
noncomputable def vnorm (v : Vec3) : ℝ :=
  Real.sqrt (v.j0 ^ 2 + v.j1 ^ 2 + v.j2 ^ 2)

/-! Constants of Television_Quest_Sync.py. -/

def YAW_SENSITIVITY : ℝ := 1
def PITCH_SENSITIVITY : ℝ := -1
noncomputable def qLRlo : ℝ := -29/10
noncomputable def qLRhi : ℝ := 29/10
noncomputable def ID1lo : ℝ := -286/100
noncomputable def ID1hi : ℝ := -31/100
noncomputable def ID3lo : ℝ := 37/100
noncomputable def ID3hi : ℝ := 291/100
def STALE_DATA_TIMEOUT : ℝ := 1
noncomputable def MIN_COMMAND_CHANGE : ℝ := 5/1000

/-- A received datagram after tokenisation: the comma-split token list,
each token carried as its float-parse result (`none` when `float(...)`
would raise `ValueError`). -/
abbrev Tokens := List (Option ℝ)

/-- The parse step of Television_Quest_Sync.py lines 110-114:
`float(values[0])` then `float(values[1])`; a missing second token raises
`IndexError` and an unparseable token raises `ValueError`, both of which
discard the datagram. Extra tokens are never inspected. -/
def parseSample (values : Tokens) : Option (ℝ × ℝ) :=
  match values with
  | some p :: some y :: _ => some (p, y)
  | _ => none

/-- The per-joint `np.clip(x, lo, hi)`: lower bound applied first, then
the upper bound. -/
noncomputable def clip (x lo hi : ℝ) : ℝ := min (max x lo) hi

/-- Television_Quest_Sync.py lines 130-133: `np.clip(target_pos, lows, highs)`
with the per-joint limit arrays. -/
noncomputable def questClip (t : Vec3) : Vec3 :=
  ⟨clip t.j0 qLRlo qLRhi, clip t.j1 ID1lo ID1hi, clip t.j2 ID3lo ID3hi⟩

/-- Television_Quest_Sync.py line 116-117: yaw offset as the wrapped
difference from the Quest zero. -/
noncomputable def questYawOffsetDeg (zeroYaw yaw : ℝ) : ℝ :=
  wrapDeg (yaw - zeroYaw)

/-- Television_Quest_Sync.py line 119-120: pitch offset as the wrapped
difference from the Quest zero. -/
noncomputable def questPitchOffsetDeg (zeroPitch pitch : ℝ) : ℝ :=
  wrapDeg (pitch - zeroPitch)

/-- Television_Quest_Sync.py lines 122-128: build the candidate target from
the home (zero) position and the zero-referenced offsets. -/
noncomputable def questTarget (home : Vec3) (zp zy p y : ℝ) : Vec3 :=
  let yawOffsetRad := deg2rad (questYawOffsetDeg zy y) * YAW_SENSITIVITY
  let pitchOffsetRad := deg2rad (questPitchOffsetDeg zp p) * PITCH_SENSITIVITY
  ⟨home.j0 - yawOffsetRad, home.j1 + pitchOffsetRad, home.j2 + pitchOffsetRad⟩

/-- Mutable state of the Television_Quest_Sync.py main loop: the last sent
command and the time of the last received datagram / stale reset. -/
structure QState where
  lastSent : Vec3
  lastCommandTime : ℝ

/-- One iteration of the Television_Quest_Sync.py control loop
(lines 100-173), given the most recent queued datagram of this tick
(`none` when the socket had nothing). Returns the new loop state and the
command issued to the robot this tick, if any. -/
noncomputable def questTick (home : Vec3) (zp zy : ℝ) (s : QState)
    (latestData : Option Tokens) (now : ℝ) : QState × Option Vec3 :=
  match latestData with
  | some tokens =>
    match parseSample tokens with
    | none => (⟨s.lastSent, now⟩, none)
    | some (p, y) =>
      let finalCommand := questClip (questTarget home zp zy p y)
      if MIN_COMMAND_CHANGE < vnorm (vsub finalCommand s.lastSent) then
        (⟨finalCommand, now⟩, some finalCommand)
      else
        (⟨s.lastSent, now⟩, none)
  | none =>
    if STALE_DATA_TIMEOUT < now - s.lastCommandTime then
      (⟨home, now⟩, some home)
    else
      (s, none)

/-- A datagram as returned by `recvfrom`: `nonempty` is the Python
truthiness of the raw bytes — false exactly for the zero-length datagram
`b''` — and `tokens` the float-parse results of its comma-split text. -/
structure Datagram where
  nonempty : Bool
  tokens : Tokens

/-- The zero-length datagram `b''`: falsy, and its text splits to the
single unparseable token (`''.split(',') = ['']`, `float('')` raises). -/
def emptyDatagram : Datagram := ⟨false, [none]⟩

/-- Television_Quest_Sync.py line 107, `if latest_data:` — a truthiness
test on the raw bytes: only a non-empty datagram enters the parse/command
branch; no datagram and the zero-length datagram both fall through to the
`elif` staleness check. -/
noncomputable def questTickRecv (home : Vec3) (zp zy : ℝ) (s : QState)
    (latest : Option Datagram) (now : ℝ) : QState × Option Vec3 :=
  match latest with
  | some d =>
    if d.nonempty then questTick home zp zy s (some d.tokens) now
    else questTick home zp zy s none now
  | none => questTick home zp zy s none now

/-- Iterated control loop: fold `questTickRecv` over a list of per-tick
inputs (received datagram, time), collecting every command issued. -/
noncomputable def runTicksRecv (home : Vec3) (zp zy : ℝ) (s : QState) :
    List (Option Datagram × ℝ) → QState × List Vec3
  | [] => (s, [])
  | (d, t) :: rest =>
    let r := questTickRecv home zp zy s d t
    let rr := runTicksRecv home zp zy r.1 rest
    (rr.1, (match r.2 with | some c => [c] | none => []) ++ rr.2)

/-! Constants of Television_Keyboard_Code.py. -/

noncomputable def LR_STEP_SIZE : ℝ := 1/4
noncomputable def UD_STEP_SIZE : ℝ := 3/10
noncomputable def kbLRlo : ℝ := -314/100 + LR_STEP_SIZE
noncomputable def kbLRhi : ℝ := 314/100 - LR_STEP_SIZE

/-- Television_Keyboard_Code.py lines 114-123: start from the current
position and adopt each candidate component only when it lies inside that
joint's limit range; otherwise that component keeps the current value. -/
noncomputable def kbClamp (next cur : Vec3) : Vec3 :=
  ⟨if kbLRlo ≤ next.j0 ∧ next.j0 ≤ kbLRhi then next.j0 else cur.j0,
   if ID1lo ≤ next.j1 ∧ next.j1 ≤ ID1hi then next.j1 else cur.j1,
   if ID3lo ≤ next.j2 ∧ next.j2 ≤ ID3hi then next.j2 else cur.j2⟩

/-- One startup safety report entry of Television_Keyboard_Code.py lines
60-73: the printed joint ID, the offending value and the limit range. -/
structure Violation where
  joint : ℕ
  value : ℝ
  lo : ℝ
  hi : ℝ

/-- Television_Keyboard_Code.py lines 59-73: all three joints are checked
in turn and every violation is reported (the `safe_start` flag is only
cleared, never short-circuited). -/
noncomputable def kbViolations (home : Vec3) : List Violation :=
  (if kbLRlo ≤ home.j0 ∧ home.j0 ≤ kbLRhi then [] else
    [⟨2, home.j0, kbLRlo, kbLRhi⟩]) ++
  (if ID1lo ≤ home.j1 ∧ home.j1 ≤ ID1hi then [] else
    [⟨1, home.j1, ID1lo, ID1hi⟩]) ++
  (if ID3lo ≤ home.j2 ∧ home.j2 ≤ ID3hi then [] else
    [⟨3, home.j2, ID3lo, ID3hi⟩])

/-- Outcome of the keyboard session startup: either an abort carrying the
safety report and the shutdown effects (torque disabled, port closed), or
entry into the active control loop with the captured home position. -/
inductive StartOutcome where
  | aborted (report : List Violation) (torqueDisabled : Bool) (closed : Bool)
  | active (home : Vec3)

/-- Television_Keyboard_Code.py lines 48-81: capture the home position
(defaulting to `[0,0,0]` when the read fails), run the safety check, and
either abort — disabling torque and closing the port — or proceed. -/
noncomputable def kbStartup (readHome : Option Vec3) : StartOutcome :=
  let home := readHome.getD ⟨0, 0, 0⟩
  match kbViolations home with
  | [] => .active home
  | v :: rest => .aborted (v :: rest) true true

/-- Television_Quest_Sync.py lines 27-97: the network session's startup
captures the zero position and establishes the Quest zero reference; it
aborts only when the position cannot be read or no valid datagram arrives
within the 5-second window. It performs no limit validation of the
captured position. -/
def questStartupProceeds (readHome : Option Vec3) (zeroFound : Bool) : Bool :=
  readHome.isSome && zeroFound

/-! The driver layer (driver.py). -/

/-- driver.py line 102: `int((angle * 2048 / np.pi) + 2048)`. -/
noncomputable def rawTick (angle : ℝ) : ℤ :=
  pyInt (angle * 2048 / Real.pi + 2048)

/-- driver.py lines 102-103: the tick written to the goal-position
register, clamped to the full hardware range `[0, 4095]` by
`max(0, min(4095, position_value))`. -/
noncomputable def goalTick (angle : ℝ) : ℤ :=
  max 0 (min 4095 (rawTick angle))

/-- State of the hardware `DynamixelDriver` relevant to `set_joints`: the
actuator IDs, the cached present-position readings (written only by the
background read thread) and the torque flag. -/
structure DriverState where
  ids : List ℕ
  joint_angles : List ℤ
  torque_enabled : Bool

/-- driver.py lines 95-105, `DynamixelDriver.set_joints`: returns
immediately while torque is disabled; otherwise issues one goal-position
register write per actuator, pairing `zip(self._ids, joint_angles)`.
The cached joint state is never touched by this method. Result: the
(unchanged) driver state and the list of `(id, tick)` register writes. -/
noncomputable def realSetJoints (d : DriverState) (angles : List ℝ) :
    DriverState × List (ℕ × ℤ) :=
  if d.torque_enabled = false then (d, [])
  else (d, (d.ids.zip angles).map (fun p => (p.1, goalTick p.2)))

/-- State of `FakeDynamixelDriver` (driver.py lines 42-56). -/
structure FakeDriver (n : ℕ) where
  joint_angles : Fin n → ℝ
  torque_enabled : Bool

/-- driver.py lines 47-48, `FakeDynamixelDriver.set_joints`: stores the
commanded angles unconditionally — there is no torque check. -/
def fakeSetJoints {n : ℕ} (d : FakeDriver n) (v : Fin n → ℝ) : FakeDriver n :=
  ⟨v, d.torque_enabled⟩

/-- driver.py lines 53-54, `FakeDynamixelDriver.get_joints`. -/
def fakeGetJoints {n : ℕ} (d : FakeDriver n) : Fin n → ℝ :=
  d.joint_angles

/-- The joint-space adapter `DynamixelRobot` (dynamixel_robot.py) backed by
the fake driver: per-joint calibration sign and offset plus driver state. -/
structure DxlRobot (n : ℕ) where
  joint_offsets : Fin n → ℝ
  joint_signs : Fin n → ℝ
  driver : FakeDriver n

/-- dynamixel_robot.py lines 54-61, `get_joint_state`:
`wrap_to_pi((driver_pos - offsets) * signs)`. -/
noncomputable def robotGetJointState {n : ℕ} (r : DxlRobot n) : Fin n → ℝ :=
  fun i => wrap_to_pi ((fakeGetJoints r.driver i - r.joint_offsets i) * r.joint_signs i)

/-- dynamixel_robot.py lines 63-71, `command_joint_state`:
`set_joints(wrap_to_pi(joint_state * signs + offsets))`. -/
noncomputable def robotCommandJointState {n : ℕ} (r : DxlRobot n) (v : Fin n → ℝ) :
    DxlRobot n :=
  ⟨r.joint_offsets, r.joint_signs,
   fakeSetJoints r.driver (fun i => wrap_to_pi (v i * r.joint_signs i + r.joint_offsets i))⟩

/-! Claim theorems. -/

/-- C7: for all real `x`, `wrap_to_pi` is idempotent and its value lies in
the half-open interval `[-π, π)`. -/
theorem C7_wrap_idempotent_and_in_range (x : ℝ) :
    wrap_to_pi (wrap_to_pi x) = wrap_to_pi x ∧
    -Real.pi ≤ wrap_to_pi x ∧ wrap_to_pi x < Real.pi :=
  ⟨wrap_to_pi_idem x, (wrap_to_pi_mem x).1, (wrap_to_pi_mem x).2⟩

/-- C9 counterexample: at a raw-minus-zero difference of 180 degrees the
wrapped offset is exactly `-180`, which does not lie in the claimed
interval `(-180, 180]`. -/
theorem C9_cex_wrap_at_180 :
    questYawOffsetDeg 0 180 = -180 ∧ ¬ (-180 < questYawOffsetDeg 0 180) := by
  have h : questYawOffsetDeg 0 180 = -180 := by
    unfold questYawOffsetDeg wrapDeg pymod
    rw [show ((180:ℝ) - 0 + 180) / 360 = 1 by norm_num]
    rw [Int.floor_one]
    norm_num
  exact ⟨h, by rw [h]; norm_num⟩

/-- C9 (amended): the pitch and yaw offsets are computed as the wrapped
difference `wrapDeg (current - zero)` of each valid sample from the
reference zero, and the wrapped difference always lies in the half-open
interval `[-180, 180)` degrees. -/
theorem C9_offsets_wrapped_difference (zp zy p y : ℝ) :
    questPitchOffsetDeg zp p = wrapDeg (p - zp) ∧
    questYawOffsetDeg zy y = wrapDeg (y - zy) ∧
    -180 ≤ questPitchOffsetDeg zp p ∧ questPitchOffsetDeg zp p < 180 ∧
    -180 ≤ questYawOffsetDeg zy y ∧ questYawOffsetDeg zy y < 180 :=
  ⟨rfl, rfl, (wrapDeg_mem _).1, (wrapDeg_mem _).2,
   (wrapDeg_mem _).1, (wrapDeg_mem _).2⟩

/-- C6: commanding any joint vector through the adapter backed by the fake
driver and reading the state back yields `wrap_to_pi` of the vector
elementwise, for any offsets and any per-joint signs in `{-1, +1}`. -/
theorem C6_fake_driver_round_trip {n : ℕ} (r : DxlRobot n) (v : Fin n → ℝ)
    (hsigns : ∀ i, r.joint_signs i = 1 ∨ r.joint_signs i = -1) :
    robotGetJointState (robotCommandJointState r v) = fun i => wrap_to_pi (v i) := by
  funext i
  simp only [robotGetJointState, robotCommandJointState, fakeSetJoints, fakeGetJoints]
  obtain ⟨k, hk⟩ := wrap_to_pi_sub_rep (v i * r.joint_signs i + r.joint_offsets i)
  rcases hsigns i with hs | hs <;> rw [hs] at hk ⊢ <;> rw [hk]
  · rw [show (v i * 1 + r.joint_offsets i + 2 * Real.pi * k - r.joint_offsets i) * 1
        = v i + 2 * Real.pi * k by ring]
    rw [show v i = v i * 1 by ring]
    exact wrap_to_pi_add_two_pi_int (v i * 1) k
  · rw [show (v i * -1 + r.joint_offsets i + 2 * Real.pi * k - r.joint_offsets i) * -1
        = v i + 2 * Real.pi * (((-k : ℤ) : ℝ)) by push_cast; ring]
    rw [wrap_to_pi_add_two_pi_int (v i) (-k)]

/-- C6 witness: a concrete one-joint robot with sign `1`, offset `0` and
command `0`. -/
theorem C6_witness :
    (∀ i, (⟨fun _ => 0, fun _ => 1, ⟨fun _ => 0, false⟩⟩ : DxlRobot 1).joint_signs i = 1 ∨
          (⟨fun _ => 0, fun _ => 1, ⟨fun _ => 0, false⟩⟩ : DxlRobot 1).joint_signs i = -1) ∧
    robotGetJointState
        (robotCommandJointState
          (⟨fun _ => 0, fun _ => 1, ⟨fun _ => 0, false⟩⟩ : DxlRobot 1) (fun _ => 0))
      = fun i => wrap_to_pi ((fun _ : Fin 1 => (0:ℝ)) i) :=
  ⟨fun _ => Or.inl rfl,
   C6_fake_driver_round_trip
     (⟨fun _ => 0, fun _ => 1, ⟨fun _ => 0, false⟩⟩ : DxlRobot 1)
     (fun _ => 0) (fun _ => Or.inl rfl)⟩

/-- C4 counterexample: at angle `9π/20480` the intermediate value is
`2048.9`; the code's `int()` truncation yields tick `2048`, while the
claimed round-to-nearest yields `2049`. -/
theorem C4_cex_truncation_not_rounding :
    goalTick (9 * Real.pi / 20480) = 2048 ∧
    max 0 (min 4095 (round (9 * Real.pi / 20480 * 2048 / Real.pi + 2048))) = (2049 : ℤ) := by
  have hπ : Real.pi ≠ 0 := Real.pi_ne_zero
  have hval : 9 * Real.pi / 20480 * 2048 / Real.pi + 2048 = 20489 / 10 := by
    field_simp
    ring
  have hfloor : ⌊(20489 / 10 : ℝ)⌋ = 2048 := by
    rw [Int.floor_eq_iff]; norm_num
  have hround : round ((20489 / 10 : ℝ)) = (2049 : ℤ) := by
    rw [round_eq]
    rw [show (20489 / 10 : ℝ) + 1 / 2 = 20494 / 10 by norm_num]
    rw [Int.floor_eq_iff]; norm_num
  constructor
  · unfold goalTick rawTick pyInt
    rw [hval, if_pos (by norm_num), hfloor]
    decide
  · rw [hval, hround]
    decide

/-- C4 (amended): the per-actuator write path computes the raw tick by
truncating `angle * 2048/π + 2048` toward zero (Python `int()`), clamps it
to the hardware range `[0, 4095]`, and with torque enabled issues exactly
one register write per actuator. -/
theorem C4_tick_truncate_clamp_one_write (a : ℝ) (d : DriverState) (angles : List ℝ)
    (ht : d.torque_enabled = true) (hlen : angles.length = d.ids.length) :
    goalTick a = max 0 (min 4095 (pyInt (a * 2048 / Real.pi + 2048))) ∧
    0 ≤ goalTick a ∧ goalTick a ≤ 4095 ∧
    (realSetJoints d angles).2.length = d.ids.length := by
  refine ⟨rfl, le_max_left _ _, ?_, ?_⟩
  · exact max_le (by norm_num) (min_le_left _ _)
  · simp [realSetJoints, ht, List.length_zip, hlen]

/-- C4 witness: three actuators, torque on, all angles zero. -/
theorem C4_witness :
    (⟨[2, 1, 3], [0, 0, 0], true⟩ : DriverState).torque_enabled = true ∧
    ([(0:ℝ), 0, 0]).length = (⟨[2, 1, 3], [0, 0, 0], true⟩ : DriverState).ids.length ∧
    (realSetJoints (⟨[2, 1, 3], [0, 0, 0], true⟩ : DriverState) [0, 0, 0]).2.length
      = (⟨[2, 1, 3], [0, 0, 0], true⟩ : DriverState).ids.length :=
  ⟨rfl, rfl,
   (C4_tick_truncate_clamp_one_write 0 (⟨[2, 1, 3], [0, 0, 0], true⟩ : DriverState)
     [0, 0, 0] rfl rfl).2.2.2⟩

/-- C5 counterexample: the fake driver, with torque disabled, still stores
the commanded joint state — `set_joints` is not a no-op there. -/
theorem C5_cex_fake_driver_stores :
    (⟨fun _ => 0, false⟩ : FakeDriver 1).torque_enabled = false ∧
    fakeSetJoints (⟨fun _ => 0, false⟩ : FakeDriver 1) (fun _ => 1)
      ≠ (⟨fun _ => 0, false⟩ : FakeDriver 1) := by
  refine ⟨rfl, ?_⟩
  intro h
  have h0 : (1 : ℝ) = 0 :=
    congrArg (fun d : FakeDriver 1 => d.joint_angles 0) h
  norm_num at h0

/-- C5 (amended): the hardware driver's `set_joints` is a no-op while
torque is disabled — no writes, state untouched — whereas the fake driver
stores the commanded angles unconditionally. -/
theorem C5_torque_disabled_policy {n : ℕ} (d : DriverState) (angles : List ℝ)
    (fd : FakeDriver n) (v : Fin n → ℝ) (hd : d.torque_enabled = false) :
    realSetJoints d angles = (d, []) ∧ (fakeSetJoints fd v).joint_angles = v := by
  exact ⟨by simp [realSetJoints, hd], rfl⟩

/-- C5 witness: concrete hardware-driver state with torque off. -/
theorem C5_witness :
    (⟨[2, 1, 3], [0, 0, 0], false⟩ : DriverState).torque_enabled = false ∧
    realSetJoints (⟨[2, 1, 3], [0, 0, 0], false⟩ : DriverState) [1, 1, 1]
      = ((⟨[2, 1, 3], [0, 0, 0], false⟩ : DriverState), []) :=
  ⟨rfl,
   (C5_torque_disabled_policy (⟨[2, 1, 3], [0, 0, 0], false⟩ : DriverState) [1, 1, 1]
     (⟨fun _ => 0, true⟩ : FakeDriver 1) (fun _ => 0) rfl).1⟩

lemma clip_below (x lo hi : ℝ) (hlh : lo ≤ hi) (h : x < lo) : clip x lo hi = lo := by
  unfold clip
  rw [max_eq_right h.le, min_eq_left hlh]

lemma clip_above (x lo hi : ℝ) (hlh : lo ≤ hi) (h : hi < x) : clip x lo hi = hi := by
  unfold clip
  rw [max_eq_left (hlh.trans h.le), min_eq_right h.le]

/-- C1 counterexample: in the network loop, candidate yaw `5` is outside
`[-2.9, 2.9]`, the current yaw is `0`, and the clipped command is the
boundary `2.9` — not the current position. -/
theorem C1_cex_network_clips_to_boundary :
    ¬ (qLRlo ≤ (5:ℝ) ∧ (5:ℝ) ≤ qLRhi) ∧
    (questClip ⟨5, -1, 1⟩).j0 = qLRhi ∧
    (questClip ⟨5, -1, 1⟩).j0 ≠ (0:ℝ) := by
  have h : (questClip ⟨5, -1, 1⟩).j0 = qLRhi :=
    clip_above 5 qLRlo qLRhi (by norm_num [qLRlo, qLRhi]) (by norm_num [qLRhi])
  refine ⟨by norm_num [qLRlo, qLRhi], h, ?_⟩
  rw [h]
  norm_num [qLRhi]

/-- C1 (amended): the keyboard loop's clamping step adopts an in-range
candidate and retains the current position for an out-of-range candidate;
the network loop instead clips an out-of-range candidate to the violated
limit boundary. -/
theorem C1_clamp_policy_by_source (next cur t : Vec3) :
    (¬ (kbLRlo ≤ next.j0 ∧ next.j0 ≤ kbLRhi) → (kbClamp next cur).j0 = cur.j0) ∧
    ((kbLRlo ≤ next.j0 ∧ next.j0 ≤ kbLRhi) → (kbClamp next cur).j0 = next.j0) ∧
    (¬ (ID1lo ≤ next.j1 ∧ next.j1 ≤ ID1hi) → (kbClamp next cur).j1 = cur.j1) ∧
    ((ID1lo ≤ next.j1 ∧ next.j1 ≤ ID1hi) → (kbClamp next cur).j1 = next.j1) ∧
    (¬ (ID3lo ≤ next.j2 ∧ next.j2 ≤ ID3hi) → (kbClamp next cur).j2 = cur.j2) ∧
    ((ID3lo ≤ next.j2 ∧ next.j2 ≤ ID3hi) → (kbClamp next cur).j2 = next.j2) ∧
    (t.j0 < qLRlo → (questClip t).j0 = qLRlo) ∧
    (qLRhi < t.j0 → (questClip t).j0 = qLRhi) ∧
    (t.j1 < ID1lo → (questClip t).j1 = ID1lo) ∧
    (ID1hi < t.j1 → (questClip t).j1 = ID1hi) ∧
    (t.j2 < ID3lo → (questClip t).j2 = ID3lo) ∧
    (ID3hi < t.j2 → (questClip t).j2 = ID3hi) := by
  refine ⟨fun h => if_neg h, fun h => if_pos h, fun h => if_neg h, fun h => if_pos h,
    fun h => if_neg h, fun h => if_pos h, ?_, ?_, ?_, ?_, ?_, ?_⟩
  · exact fun h => clip_below _ _ _ (by norm_num [qLRlo, qLRhi]) h
  · exact fun h => clip_above _ _ _ (by norm_num [qLRlo, qLRhi]) h
  · exact fun h => clip_below _ _ _ (by norm_num [ID1lo, ID1hi]) h
  · exact fun h => clip_above _ _ _ (by norm_num [ID1lo, ID1hi]) h
  · exact fun h => clip_below _ _ _ (by norm_num [ID3lo, ID3hi]) h
  · exact fun h => clip_above _ _ _ (by norm_num [ID3lo, ID3hi]) h

/-- C1 witness: keyboard candidate yaw `6` is out of range and the command
keeps the current yaw `1`; network candidate yaw `6` is clipped to the
upper boundary. -/
theorem C1_witness :
    ¬ (kbLRlo ≤ (6:ℝ) ∧ (6:ℝ) ≤ kbLRhi) ∧
    (kbClamp ⟨6, 0, 1⟩ ⟨1, -1, 1⟩).j0 = 1 ∧
    qLRhi < (6:ℝ) ∧
    (questClip ⟨6, -3, 0⟩).j0 = qLRhi :=
  ⟨by norm_num [kbLRlo, kbLRhi, LR_STEP_SIZE],
   (C1_clamp_policy_by_source ⟨6, 0, 1⟩ ⟨1, -1, 1⟩ ⟨6, -3, 0⟩).1
     (by norm_num [kbLRlo, kbLRhi, LR_STEP_SIZE]),
   by norm_num [qLRhi],
   (C1_clamp_policy_by_source ⟨6, 0, 1⟩ ⟨1, -1, 1⟩ ⟨6, -3, 0⟩).2.2.2.2.2.2.2.1
     (by norm_num [qLRhi])⟩

lemma mem_kbViolations_j0 (home : Vec3) :
    (⟨2, home.j0, kbLRlo, kbLRhi⟩ : Violation) ∈ kbViolations home ↔
    ¬ (kbLRlo ≤ home.j0 ∧ home.j0 ≤ kbLRhi) := by
  unfold kbViolations
  split_ifs with h1 h2 h3 <;>
    simp_all [Violation.mk.injEq]

lemma mem_kbViolations_j1 (home : Vec3) :
    (⟨1, home.j1, ID1lo, ID1hi⟩ : Violation) ∈ kbViolations home ↔
    ¬ (ID1lo ≤ home.j1 ∧ home.j1 ≤ ID1hi) := by
  unfold kbViolations
  split_ifs with h1 h2 h3 <;>
    simp_all [Violation.mk.injEq]

lemma mem_kbViolations_j2 (home : Vec3) :
    (⟨3, home.j2, ID3lo, ID3hi⟩ : Violation) ∈ kbViolations home ↔
    ¬ (ID3lo ≤ home.j2 ∧ home.j2 ≤ ID3hi) := by
  unfold kbViolations
  split_ifs with h1 h2 h3 <;>
    simp_all [Violation.mk.injEq]

/-- C2 counterexample: the network session's startup, given the captured
home position `[0, 0, 0]` — whose joint of ID 1 is outside its limit range
`[-2.86, -0.31]` — performs no limit validation and proceeds into active
control rather than aborting. -/
theorem C2_cex_network_startup_proceeds :
    questStartupProceeds (some ⟨0, 0, 0⟩) true = true ∧
    ¬ (ID1lo ≤ ((⟨0, 0, 0⟩ : Vec3)).j1 ∧ ((⟨0, 0, 0⟩ : Vec3)).j1 ≤ ID1hi) :=
  ⟨rfl, by norm_num [ID1lo, ID1hi]⟩

/-- C2 (amended): in the keyboard program, when the captured home position
has a joint outside its limit range, the startup validation aborts the
session with torque disabled and the connection closed, and its report
contains an entry — naming the joint ID, the value and the range — for
every violating joint (and only those). -/
theorem C2_startup_validation_aborts (home : Vec3)
    (hviol : ¬ (kbLRlo ≤ home.j0 ∧ home.j0 ≤ kbLRhi) ∨
             ¬ (ID1lo ≤ home.j1 ∧ home.j1 ≤ ID1hi) ∨
             ¬ (ID3lo ≤ home.j2 ∧ home.j2 ≤ ID3hi)) :
    kbStartup (some home) = .aborted (kbViolations home) true true ∧
    kbViolations home ≠ [] ∧
    ((⟨2, home.j0, kbLRlo, kbLRhi⟩ : Violation) ∈ kbViolations home ↔
      ¬ (kbLRlo ≤ home.j0 ∧ home.j0 ≤ kbLRhi)) ∧
    ((⟨1, home.j1, ID1lo, ID1hi⟩ : Violation) ∈ kbViolations home ↔
      ¬ (ID1lo ≤ home.j1 ∧ home.j1 ≤ ID1hi)) ∧
    ((⟨3, home.j2, ID3lo, ID3hi⟩ : Violation) ∈ kbViolations home ↔
      ¬ (ID3lo ≤ home.j2 ∧ home.j2 ≤ ID3hi)) := by
  have hne : kbViolations home ≠ [] := by
    unfold kbViolations
    split_ifs <;> simp_all
  refine ⟨?_, hne, mem_kbViolations_j0 home, mem_kbViolations_j1 home,
    mem_kbViolations_j2 home⟩
  unfold kbStartup
  rcases h : kbViolations home with _ | ⟨v, rest⟩
  · exact absurd h hne
  · simp [h]

/-- C2 witness: home `[0, 0, 0]` violates the limits of joints 1 and 3 and
the keyboard startup aborts with both reported. -/
theorem C2_witness :
    ¬ (ID1lo ≤ ((⟨0, 0, 0⟩ : Vec3)).j1 ∧ ((⟨0, 0, 0⟩ : Vec3)).j1 ≤ ID1hi) ∧
    kbStartup (some ⟨0, 0, 0⟩) = .aborted (kbViolations ⟨0, 0, 0⟩) true true :=
  ⟨by norm_num [ID1lo, ID1hi],
   (C2_startup_validation_aborts ⟨0, 0, 0⟩
     (Or.inr (Or.inl (by norm_num [ID1lo, ID1hi])))).1⟩

/-- C3: a stale tick of the network loop — no datagram and more than the
timeout since the last one — commands the home (zero) position itself, so
the commanded position's distance to home strictly decreases to zero on
that tick and home is reached, rather than the last command being held. -/
theorem C3_staleness_returns_home (home : Vec3) (zp zy : ℝ) (s : QState) (now : ℝ)
    (hstale : STALE_DATA_TIMEOUT < now - s.lastCommandTime)
    (hne : s.lastSent ≠ home) :
    (questTick home zp zy s none now).2 = some home ∧
    (questTick home zp zy s none now).1.lastSent = home ∧
    vnorm (vsub (questTick home zp zy s none now).1.lastSent home) = 0 ∧
    0 < vnorm (vsub s.lastSent home) := by
  have hred : questTick home zp zy s none now = (⟨home, now⟩, some home) := by
    simp [questTick, if_pos hstale]
  have hcomp : s.lastSent.j0 ≠ home.j0 ∨ s.lastSent.j1 ≠ home.j1 ∨
      s.lastSent.j2 ≠ home.j2 := by
    by_contra hc
    push_neg at hc
    exact hne (Vec3.ext hc.1 hc.2.1 hc.2.2)
  refine ⟨by rw [hred], by rw [hred], ?_, ?_⟩
  · rw [hred]
    simp [vnorm, vsub]
  · simp only [vnorm, vsub, Real.sqrt_pos]
    have h0 := sq_nonneg (s.lastSent.j0 - home.j0)
    have h1 := sq_nonneg (s.lastSent.j1 - home.j1)
    have h2 := sq_nonneg (s.lastSent.j2 - home.j2)
    rcases hcomp with h | h | h <;>
      have hd : _ ≠ (0:ℝ) := sub_ne_zero.mpr h <;>
      have hp := lt_of_le_of_ne (sq_nonneg _) (Ne.symm (pow_ne_zero 2 hd)) <;>
      linarith

/-- C3 witness: last sent `[1, 0, 0]`, home `[0, 0, 0]`, timeout exceeded. -/
theorem C3_witness :
    STALE_DATA_TIMEOUT < (2:ℝ) - (⟨⟨1, 0, 0⟩, 0⟩ : QState).lastCommandTime ∧
    (⟨⟨1, 0, 0⟩, 0⟩ : QState).lastSent ≠ (⟨0, 0, 0⟩ : Vec3) ∧
    (questTick ⟨0, 0, 0⟩ 0 0 ⟨⟨1, 0, 0⟩, 0⟩ none 2).2 = some ⟨0, 0, 0⟩ ∧
    0 < vnorm (vsub (⟨⟨1, 0, 0⟩, 0⟩ : QState).lastSent ⟨0, 0, 0⟩) := by
  have h1 : STALE_DATA_TIMEOUT < (2:ℝ) - (⟨⟨1, 0, 0⟩, 0⟩ : QState).lastCommandTime := by
    norm_num [STALE_DATA_TIMEOUT]
  have h2 : (⟨⟨1, 0, 0⟩, 0⟩ : QState).lastSent ≠ (⟨0, 0, 0⟩ : Vec3) := by
    simp [Vec3.ext_iff]
  have h := C3_staleness_returns_home ⟨0, 0, 0⟩ 0 0 ⟨⟨1, 0, 0⟩, 0⟩ 2 h1 h2
  exact ⟨h1, h2, h.1, h.2.2.2⟩

/-- C8: a datagram is accepted exactly when its token list has at least two
tokens whose first two parse as floats; trailing tokens are ignored; a
rejected datagram updates no command and only restarts the staleness
clock, and the loop continues. -/
theorem C8_datagram_acceptance (tokens badTokens : Tokens) (a b : Option ℝ)
    (rest : Tokens) (home : Vec3) (zp zy : ℝ) (s : QState) (now : ℝ)
    (hbad : parseSample badTokens = none) :
    ((parseSample tokens).isSome ↔ ∃ p y r, tokens = some p :: some y :: r) ∧
    parseSample (a :: b :: rest) = parseSample [a, b] ∧
    questTick home zp zy s (some badTokens) now = (⟨s.lastSent, now⟩, none) := by
  refine ⟨?_, ?_, by simp [questTick, hbad]⟩
  · rcases tokens with _ | ⟨x, rest0⟩
    · simp [parseSample]
    · rcases rest0 with _ | ⟨y, rest1⟩
      · rcases x with _ | xv <;> simp [parseSample]
      · rcases x with _ | xv <;> rcases y with _ | yv <;> simp [parseSample]
  · rcases a with _ | av <;> rcases b with _ | bv <;> rfl

/-- C8 witness: the one-token datagram `"1"` is rejected and leaves the
loop state intact apart from the staleness clock. -/
theorem C8_witness :
    parseSample [some 1] = none ∧
    questTick ⟨0, 0, 0⟩ 0 0 ⟨⟨0, 0, 0⟩, 0⟩ (some [some 1]) 7
      = (⟨⟨0, 0, 0⟩, 7⟩, none) ∧
    (parseSample [some 1, some 2, none]).isSome :=
  ⟨rfl,
   (C8_datagram_acceptance [some 1, some 2, none] [some 1] (some 1) none []
     ⟨0, 0, 0⟩ 0 0 ⟨⟨0, 0, 0⟩, 0⟩ 7 rfl).2.2,
   (C8_datagram_acceptance [some 1, some 2, none] [some 1] (some 1) none []
     ⟨0, 0, 0⟩ 0 0 ⟨⟨0, 0, 0⟩, 0⟩ 7 rfl).1.mpr ⟨1, 2, [none], rfl⟩⟩

lemma runTicksRecv_nonempty_malformed (home : Vec3) (zp zy : ℝ) :
    ∀ (inputs : List (Option Datagram × ℝ)) (s0 : QState),
    (∀ p ∈ inputs, ∃ tk, p.1 = some (⟨true, tk⟩ : Datagram) ∧ parseSample tk = none) →
    (runTicksRecv home zp zy s0 inputs).2 = [] ∧
    (runTicksRecv home zp zy s0 inputs).1.lastSent = s0.lastSent := by
  intro inputs
  induction inputs with
  | nil => intro s0 _; simp [runTicksRecv]
  | cons hd tl ih =>
    intro s0 hall
    obtain ⟨tk, h1, h2⟩ := hall hd (List.mem_cons_self hd tl)
    have hrest := fun p hp => hall p (List.mem_cons_of_mem hd hp)
    obtain ⟨d, t⟩ := hd
    simp only at h1
    obtain ⟨htl1, htl2⟩ := ih ⟨s0.lastSent, t⟩ hrest
    subst h1
    simp [runTicksRecv, questTickRecv, questTick, h2, htl1, htl2]

/-- C10 counterexample: the zero-length datagram fails to parse, yet its
receipt does not restart the staleness clock — `if latest_data:` is falsy
on it, so the tick is the no-data tick and the state is untouched — and a
continuous stream of empty datagrams does trigger the return-toward-home
fallback (here on the second tick, past the timeout). -/
theorem C10_cex_empty_datagram_triggers_fallback :
    parseSample emptyDatagram.tokens = none ∧
    questTickRecv ⟨1, 1, 1⟩ 0 0 ⟨⟨0, 0, 0⟩, 0⟩ (some emptyDatagram) (1/2)
      = (⟨⟨0, 0, 0⟩, 0⟩, none) ∧
    (runTicksRecv ⟨1, 1, 1⟩ 0 0 ⟨⟨0, 0, 0⟩, 0⟩
      [(some emptyDatagram, 1/2), (some emptyDatagram, 3/2)]).2
      = [⟨1, 1, 1⟩] := by
  refine ⟨rfl, ?_, ?_⟩
  · norm_num [questTickRecv, emptyDatagram, questTick, STALE_DATA_TIMEOUT]
  · norm_num [runTicksRecv, questTickRecv, emptyDatagram, questTick,
      STALE_DATA_TIMEOUT]

/-- C10 (amended): a non-empty malformed datagram restarts the staleness
clock without issuing a command; a following no-data tick within the
timeout issues nothing; a continuous stream of non-empty malformed
datagrams never triggers the return-toward-home staleness fallback (no
command is ever issued and the last sent command is unchanged); but a
zero-length datagram is falsy in the `if latest_data:` test and its tick
is exactly the no-data tick — the clock is not restarted. -/
theorem C10_malformed_resets_staleness (home : Vec3) (zp zy : ℝ) (s s0 : QState)
    (tokens : Tokens) (now now2 : ℝ) (inputs : List (Option Datagram × ℝ))
    (hbad : parseSample tokens = none)
    (hsoon : now2 - now ≤ STALE_DATA_TIMEOUT)
    (hall : ∀ p ∈ inputs, ∃ tk, p.1 = some (⟨true, tk⟩ : Datagram) ∧
      parseSample tk = none) :
    questTickRecv home zp zy s (some ⟨true, tokens⟩) now = (⟨s.lastSent, now⟩, none) ∧
    questTickRecv home zp zy ⟨s.lastSent, now⟩ none now2 = (⟨s.lastSent, now⟩, none) ∧
    (runTicksRecv home zp zy s0 inputs).2 = [] ∧
    (runTicksRecv home zp zy s0 inputs).1.lastSent = s0.lastSent ∧
    (∀ d : Datagram, d.nonempty = false →
      questTickRecv home zp zy s (some d) now = questTick home zp zy s none now) := by
  obtain ⟨h1, h2⟩ := runTicksRecv_nonempty_malformed home zp zy inputs s0 hall
  refine ⟨by simp [questTickRecv, questTick, hbad], ?_, h1, h2, ?_⟩
  · simp [questTickRecv, questTick, if_neg (not_lt.mpr hsoon)]
  · intro d hd
    simp [questTickRecv, hd]

/-- C10 witness: a non-empty malformed tick at time 0, a no-data tick at
time 1, and a two-datagram non-empty malformed stream (the second
arriving beyond the timeout), plus the empty-datagram clause at the
zero-length datagram. -/
theorem C10_witness :
    parseSample [none] = none ∧
    ((1:ℝ) - 0 ≤ STALE_DATA_TIMEOUT) ∧
    (∀ p ∈ [((some ⟨true, [none]⟩ : Option Datagram), (0:ℝ)),
            ((some ⟨true, [some 5]⟩ : Option Datagram), (10:ℝ))],
      ∃ tk, p.1 = some (⟨true, tk⟩ : Datagram) ∧ parseSample tk = none) ∧
    (runTicksRecv ⟨1, 1, 1⟩ 0 0 ⟨⟨0, 0, 0⟩, 0⟩
      [((some ⟨true, [none]⟩ : Option Datagram), (0:ℝ)),
       ((some ⟨true, [some 5]⟩ : Option Datagram), (10:ℝ))]).2 = [] ∧
    questTickRecv ⟨1, 1, 1⟩ 0 0 ⟨⟨0, 0, 0⟩, 0⟩ (some emptyDatagram) 0
      = questTick ⟨1, 1, 1⟩ 0 0 ⟨⟨0, 0, 0⟩, 0⟩ none 0 := by
  have hall : ∀ p ∈ [((some ⟨true, [none]⟩ : Option Datagram), (0:ℝ)),
      ((some ⟨true, [some 5]⟩ : Option Datagram), (10:ℝ))],
      ∃ tk, p.1 = some (⟨true, tk⟩ : Datagram) ∧ parseSample tk = none := by
    intro p hp
    simp only [List.mem_cons, List.not_mem_nil, or_false] at hp
    rcases hp with h | h
    · exact ⟨[none], by rw [h], rfl⟩
    · exact ⟨[some 5], by rw [h], rfl⟩
  have hs : (1:ℝ) - 0 ≤ STALE_DATA_TIMEOUT := by norm_num [STALE_DATA_TIMEOUT]
  have h := C10_malformed_resets_staleness ⟨1, 1, 1⟩ 0 0 ⟨⟨0, 0, 0⟩, 0⟩
    ⟨⟨0, 0, 0⟩, 0⟩ [none] 0 1
    [((some ⟨true, [none]⟩ : Option Datagram), (0:ℝ)),
     ((some ⟨true, [some 5]⟩ : Option Datagram), (10:ℝ))] rfl hs hall
  exact ⟨rfl, hs, hall, h.2.2.1, h.2.2.2.2 emptyDatagram rfl⟩

end Teleop
